import Mathlib

/-!
Verification development for the `cloudflare-go` dynamic-DNS repository.

The Go sources are shallowly embedded as executable Lean definitions:

* `internal/netutil/ip.go` — `DiscoverIPv4ViaIpify`, together with a model of
  the Go standard library functions it relies on (`net.ParseIP`, `IP.To4`,
  `IP.String`).
* `cloudflare/client.go` — `New`, `buildURL` (with models of `net/url`'s
  `Parse`, `ResolveReference`, `resolvePath` and `QueryEscape`).
* `cloudflare/dns.go` — `FindZoneID`, `GetARecord`, `CreateARecord`,
  `UpdateARecord`, `UpsertARecord`.
* `cmd/cloudflare/main.go` — `validateInputs` and the reconciliation flow
  `run`.

HTTP transports and JSON decoding are external effects; they are modelled as
oracle values (`HTTPRaw`, `HTTPResult`) consumed by the embedded functions,
so each function is a pure map from its inputs and the wire response to the
value the Go function returns.  Requests dispatched and write calls issued
are returned explicitly as lists so that claims about "how many calls" are
statable.
-/

/-! ## Model of Go `net.ParseIP` (net/ip.go), used by `DiscoverIPv4ViaIpify` -/

/-- Go `net.dtoi`: parse a decimal prefix. Returns (value, chars consumed, ok);
overflow at `big = 0xFFFFFF` makes it fail. -/
def dtoiAux (s : List Char) (n i : Nat) : Nat × Nat × Bool :=
  match s with
  | [] => if i = 0 then (0, 0, false) else (n, i, true)
  | c :: rest =>
    if '0' ≤ c ∧ c ≤ '9' then
      let n' := n * 10 + (c.toNat - '0'.toNat)
      if n' ≥ 0xFFFFFF then (0xFFFFFF, i, false)
      else dtoiAux rest n' (i + 1)
    else if i = 0 then (0, 0, false) else (n, i, true)

/-- Go `net.dtoi` entry point. -/
def dtoi (s : List Char) : Nat × Nat × Bool := dtoiAux s 0 0

/-- Hex digit value of a character, if it is one (Go `net.xtoi` digit cases). -/
def hexVal (c : Char) : Option Nat :=
  if '0' ≤ c ∧ c ≤ '9' then some (c.toNat - '0'.toNat)
  else if 'a' ≤ c ∧ c ≤ 'f' then some (c.toNat - 'a'.toNat + 10)
  else if 'A' ≤ c ∧ c ≤ 'F' then some (c.toNat - 'A'.toNat + 10)
  else none

/-- Go `net.xtoi`: parse a hexadecimal prefix. Returns (value, chars consumed, ok). -/
def xtoiAux (s : List Char) (n i : Nat) : Nat × Nat × Bool :=
  match s with
  | [] => if i = 0 then (0, 0, false) else (n, i, true)
  | c :: rest =>
    match hexVal c with
    | some d =>
      let n' := n * 16 + d
      if n' ≥ 0xFFFFFF then (0, i, false)
      else xtoiAux rest n' (i + 1)
    | none => if i = 0 then (0, 0, false) else (n, i, true)

/-- Go `net.xtoi` entry point. -/
def xtoi (s : List Char) : Nat × Nat × Bool := xtoiAux s 0 0

/-- Go `net.parseIPv4` field loop: four dot-separated decimal fields, each in
0..255, rejecting non-zero fields with leading zeros, and requiring the string
to be exhausted at the end. -/
def parseIPv4Fields : Nat → Bool → List Char → Option (List Nat)
  | 0, _, s => if s.isEmpty then some [] else none
  | k + 1, first, s =>
    if s.isEmpty then none
    else
      let s2 : Option (List Char) :=
        if first then some s
        else match s with
          | '.' :: r => some r
          | _ => none
      match s2 with
      | none => none
      | some s2 =>
        let (n, c, ok) := dtoi s2
        if ¬ok ∨ n > 0xFF then none
        else if c > 1 ∧ s2.head? = some '0' then none
        else
          match parseIPv4Fields k false (s2.drop c) with
          | none => none
          | some rest => some (n :: rest)

/-- Go `net.IPv4`: embed four bytes as an IPv4-in-IPv6 16-byte address. -/
def v4InV6 (p : List Nat) : List Nat :=
  [0, 0, 0, 0, 0, 0, 0, 0, 0, 0, 0xff, 0xff] ++ p

/-- Go `net.parseIPv4`: dotted-decimal IPv4, returned in 16-byte form as
`net.ParseIP` does. -/
def parseIPv4 (s : List Char) : Option (List Nat) :=
  (parseIPv4Fields 4 true s).map v4InV6

/-- Go `net.splitHostZone`: the IPv6 zone begins after the last percent sign
(at a positive index). -/
def splitHostZone (s : List Char) : List Char :=
  match (s.reverse.findIdx? (fun c => c = '%')) with
  | some rj =>
    let i := s.length - 1 - rj
    if i > 0 then s.take i else s
  | none => s

/-- Go `net.parseIPv6` main loop. State: bytes accumulated so far (`acc`,
length = Go's `i`), the ellipsis position if seen, and the remaining input.
The fuel bounds the loop's at-most-8 iterations (each adds ≥ 2 bytes). -/
def parseIPv6Main : Nat → List Char → List Nat → Option Nat →
    Option (List Nat × Option Nat × List Char)
  | 0, _, _, _ => none
  | fuel + 1, s, acc, ellipsis =>
    if acc.length ≥ 16 then some (acc, ellipsis, s)
    else
      let (n, c, ok) := xtoi s
      if ¬ok ∨ n > 0xFFFF then none
      else if c < s.length ∧ s.get? c = some '.' then
        if ellipsis.isNone ∧ acc.length ≠ 12 then none
        else if acc.length + 4 > 16 then none
        else
          match parseIPv4 s with
          | none => none
          | some ip4 => some (acc ++ ip4.drop 12, ellipsis, [])
      else
        let acc := acc ++ [n / 256, n % 256]
        let s := s.drop c
        if s.isEmpty then some (acc, ellipsis, s)
        else if s.head? ≠ some ':' ∨ s.length = 1 then none
        else
          let s := s.drop 1
          if s.head? = some ':' then
            if ellipsis.isSome then none
            else
              let e := acc.length
              let s := s.drop 1
              if s.isEmpty then some (acc, some e, s)
              else parseIPv6Main fuel s acc (some e)
          else parseIPv6Main fuel s acc ellipsis

/-- Go `net.parseIPv6`: leading `::` handling, main loop, then the ellipsis
expansion that right-aligns the bytes parsed after the ellipsis. -/
def parseIPv6 (s : List Char) : Option (List Nat) :=
  let start : List Char × Option Nat :=
    if s.length ≥ 2 ∧ s.take 2 = [':', ':'] then (s.drop 2, some 0) else (s, none)
  match start with
  | (s1, ellipsis0) =>
    if ellipsis0 = some 0 ∧ s1.isEmpty then some (List.replicate 16 0)
    else
      match parseIPv6Main 9 s1 [] ellipsis0 with
      | none => none
      | some (acc, ellipsis, rest) =>
        if ¬rest.isEmpty then none
        else if acc.length < 16 then
          match ellipsis with
          | none => none
          | some e =>
            let pad := 16 - acc.length
            some (acc.take e ++ List.replicate pad 0 ++ acc.drop e)
        else if ellipsis.isSome then none
        else some acc

/-- Go `net.ParseIP` dispatch: scan for the first `.` (IPv4) or `:` (IPv6). -/
def goParseIPScan (orig : List Char) : List Char → Option (List Nat)
  | [] => none
  | c :: rest =>
    if c = '.' then parseIPv4 orig
    else if c = ':' then parseIPv6 (splitHostZone orig)
    else goParseIPScan orig rest

/-- Go `net.ParseIP`, yielding the 16-byte address representation. -/
def goParseIP (s : String) : Option (List Nat) :=
  goParseIPScan s.data s.data

/-- Go `net.IP.To4`: the four IPv4 bytes if the address is IPv4 or
IPv4-mapped IPv6, else `none`. -/
def to4 (ip : List Nat) : Option (List Nat) :=
  if ip.length = 4 then some ip
  else if ip.length = 16 ∧ (ip.take 10).all (fun b => b = 0) ∧
      ip.get? 10 = some 0xff ∧ ip.get? 11 = some 0xff then
    some (ip.drop 12)
  else none

/-- Go `net.IP.String` in the case `To4` succeeds: dotted-decimal text. -/
def v4String (p : List Nat) : String :=
  String.intercalate "." (p.map (fun n => toString n))

example : goParseIP "203.0.113.42" = some (v4InV6 [203, 0, 113, 42]) := by decide
example : goParseIP "" = none := by decide
example : goParseIP "abc" = none := by decide
example : goParseIP "256.1.1.1" = none := by decide
example : goParseIP "1.2.3" = none := by decide
example : goParseIP "01.2.3.4" = none := by decide
example : (goParseIP "2001:db8::1").isSome = true := by decide
example : (goParseIP "2001:db8::1").bind to4 = none := by decide
example : goParseIP "::ffff:203.0.113.42" = some (v4InV6 [203, 0, 113, 42]) := by decide
example : goParseIP "::" = some (List.replicate 16 0) := by decide
example : (goParseIP "::").bind to4 = none := by decide

/-! ## Errors

One constructor per `errors.New` / `fmt.Errorf` site in the embedded code.
Transport-level and JSON-decode errors carry the underlying message and are
shared across operations, as in Go where the error value is returned
unchanged. -/

/-- Error values returned by the embedded functions; each constructor
corresponds to one error-construction site in the Go sources. -/
inductive Err where
  | transport (e : String)
  | decode (e : String)
  | discStatus (status : Nat)
  | invalidIPv4Response
  | emptyZoneName
  | zonesLookupStatus (status : Nat)
  | zoneNotFound (name : String)
  | getArgsRequired
  | getStatus (status : Nat)
  | upsertArgsRequired
  | createStatus (status : Nat)
  | createUnsuccessful
  | updateArgsRequired
  | updateStatus (status : Nat)
  | updateUnsuccessful
  | newBothAuth
  | newMissingAuth
  | newInvalidBaseURL (e : String)
  | validateZoneRequired
  | validateNameRequired
  | validateTTLNegative
  | validateBothCreds
  | validateMissingCreds
  | runCredsConflict
  | wanIP (e : Err)
deriving DecidableEq

deriving instance DecidableEq for Except

/-- Whether an `Except` result is an error. -/
def isErr {ε α : Type} : Except ε α → Bool
  | .error _ => true
  | .ok _ => false

/-- Whether an `Except` result is a success. -/
def isOkE {ε α : Type} : Except ε α → Bool
  | .error _ => false
  | .ok _ => true

/-! ## IP discovery (`internal/netutil/ip.go`) -/

/-- Outcome of the raw HTTP GET to the echo service: a transport-level error
(including a body-read error), or a status code with the body text. -/
inductive HTTPRaw where
  | transportError (e : String)
  | response (status : Nat) (body : String)

/-- Embeds `netutil.DiscoverIPv4ViaIpify` from the point the HTTP response is
available: non-2xx fails with the status; otherwise the body must parse under
`net.ParseIP` with a non-nil `To4`, and the canonical string is returned. -/
def DiscoverIPv4ViaIpify : HTTPRaw → Except Err String
  | .transportError e => .error (.transport e)
  | .response status body =>
    if status < 200 ∨ status ≥ 300 then .error (.discStatus status)
    else
      match goParseIP body with
      | none => .error .invalidIPv4Response
      | some parsed =>
        match to4 parsed with
        | none => .error .invalidIPv4Response
        | some p4 => .ok (v4String p4)

example : DiscoverIPv4ViaIpify (.response 200 "203.0.113.42") = .ok "203.0.113.42" := rfl
example : DiscoverIPv4ViaIpify (.response 200 "") = .error .invalidIPv4Response := rfl
example : DiscoverIPv4ViaIpify (.response 404 "x") = .error (.discStatus 404) := rfl

/-! ## URL handling (`net/url` model and `client.go` `buildURL`)

`GoURL` keeps the components the client code exercises (scheme, host, path,
raw query); user-info, opaque URIs and fragments are not modelled. -/

/-- URL components, modelling Go `url.URL` restricted to the fields the
client exercises. -/
structure GoURL where
  scheme : String
  host : String
  path : String
  rawQuery : String
deriving DecidableEq

/-- Splits a character list at the first occurrence of `://`, for Go
`url.Parse`'s scheme detection. -/
def splitSchemeAux : List Char → List Char → Option (List Char × List Char)
  | acc, ':' :: '/' :: '/' :: rest => some (acc.reverse, rest)
  | acc, c :: rest => splitSchemeAux (c :: acc) rest
  | _, [] => none

/-- Modelled subset of Go `url.Parse`: absolute `scheme://host[/path][?query]`
URLs and scheme-less relative references `path[?query]`. -/
def goURLParse (s : String) : GoURL :=
  match splitSchemeAux [] s.data with
  | none =>
    let p := s.data.takeWhile (fun c => ¬c = '?')
    let q :=
      match s.data.dropWhile (fun c => ¬c = '?') with
      | [] => ([] : List Char)
      | _ :: t => t
    { scheme := "", host := "", path := String.mk p, rawQuery := String.mk q }
  | some (sch, r) =>
    let hostChars := r.takeWhile (fun c => ¬(c = '/' ∨ c = '?'))
    let after := r.dropWhile (fun c => ¬(c = '/' ∨ c = '?'))
    let pathChars := after.takeWhile (fun c => ¬c = '?')
    let queryChars :=
      match after.dropWhile (fun c => ¬c = '?') with
      | [] => ([] : List Char)
      | _ :: q => q
    { scheme := String.mk sch, host := String.mk hostChars,
      path := String.mk pathChars, rawQuery := String.mk queryChars }

/-- Splits a character list on a separator character, keeping empty segments
(Go `strings.Split` with a one-character separator). -/
def splitChar (c : Char) : List Char → List (List Char)
  | [] => [[]]
  | x :: xs =>
    let r := splitChar c xs
    if x = c then [] :: r
    else
      match r with
      | [] => [[x]]
      | h :: t => (x :: h) :: t

/-- Joins segments with a separator character (Go `strings.Join`). -/
def joinChar (c : Char) : List (List Char) → List Char
  | [] => []
  | [x] => x
  | x :: xs => x ++ c :: joinChar c xs

/-- Prefix of `base` up to and including its last `/`, empty when `base` has
no slash (Go `base[:strings.LastIndex(base, "/")+1]`). -/
def takeToLastSlash (base : List Char) : List Char :=
  match base.reverse.findIdx? (fun c => c = '/') with
  | none => []
  | some rj => base.take (base.length - rj)

/-- Dot-segment removal loop of Go `net/url`'s `resolvePath`. -/
def resolveSegs : List (List Char) → List (List Char) → List (List Char)
  | [], dst => dst
  | elem :: rest, dst =>
    if elem = ['.'] then resolveSegs rest dst
    else if elem = ['.', '.'] then resolveSegs rest dst.dropLast
    else resolveSegs rest (dst ++ [elem])

/-- Go `net/url`'s `resolvePath`: merge `ref` against `base` (dropping the
base's last segment when `ref` is relative), remove dot segments, and return
a path with a single leading slash. -/
def resolvePath (base ref : String) : String :=
  let baseC := base.data
  let refC := ref.data
  let full : List Char :=
    if refC.isEmpty then baseC
    else if refC.head? ≠ some '/' then takeToLastSlash baseC ++ refC
    else refC
  if full.isEmpty then ""
  else
    let src := splitChar '/' full
    let dst := resolveSegs src []
    let dst :=
      match src.getLast? with
      | some last => if last = ['.'] ∨ last = ['.', '.'] then dst ++ [[]] else dst
      | none => dst
    let joined := joinChar '/' dst
    String.mk ('/' ::
      (match joined with
       | '/' :: t => t
       | t => t))

/-- Go `url.URL.ResolveReference` restricted to the modelled components. -/
def resolveReference (u ref : GoURL) : GoURL :=
  let scheme := if ref.scheme = "" then u.scheme else ref.scheme
  if ref.scheme ≠ "" ∨ ref.host ≠ "" then
    { scheme := scheme, host := ref.host,
      path := resolvePath ref.path "", rawQuery := ref.rawQuery }
  else
    let rawQuery := if ref.path = "" ∧ ref.rawQuery = "" then u.rawQuery else ref.rawQuery
    { scheme := scheme, host := u.host,
      path := resolvePath u.path ref.path, rawQuery := rawQuery }

/-- Go `url.URL.String` restricted to the modelled components. -/
def urlString (u : GoURL) : String :=
  (if u.scheme = "" then "" else u.scheme ++ ":") ++
  (if u.host = "" then "" else "//" ++ u.host) ++
  u.path ++
  (if u.rawQuery = "" then "" else "?" ++ u.rawQuery)

/-- Embeds `Client.buildURL` (client.go): parse the relative reference and
resolve it against the base URL. -/
def buildURL (base : GoURL) (p : String) : String :=
  urlString (resolveReference base (goURLParse p))

/-- UTF-8 bytes of a character (used by the `url.QueryEscape` model, which
operates on bytes as Go does). -/
def utf8Bytes (c : Char) : List Nat :=
  let n := c.toNat
  if n < 0x80 then [n]
  else if n < 0x800 then [0xC0 + n / 0x40, 0x80 + n % 0x40]
  else if n < 0x10000 then
    [0xE0 + n / 0x1000, 0x80 + (n / 0x40) % 0x40, 0x80 + n % 0x40]
  else
    [0xF0 + n / 0x40000, 0x80 + (n / 0x1000) % 0x40, 0x80 + (n / 0x40) % 0x40, 0x80 + n % 0x40]

/-- Uppercase hexadecimal digit, as Go `url` escaping emits. -/
def hexUpper (n : Nat) : Char :=
  (['0', '1', '2', '3', '4', '5', '6', '7', '8', '9', 'A', 'B', 'C', 'D', 'E', 'F']).getD n '0'

/-- Go `url.QueryEscape` per byte: alphanumerics and `-_.~` kept, space
becomes `+`, everything else percent-encoded. -/
def queryEscapeByte (b : Nat) : List Char :=
  if (0x30 ≤ b ∧ b ≤ 0x39) ∨ (0x41 ≤ b ∧ b ≤ 0x5A) ∨ (0x61 ≤ b ∧ b ≤ 0x7A) ∨
      b = 0x2D ∨ b = 0x5F ∨ b = 0x2E ∨ b = 0x7E then
    [Char.ofNat b]
  else if b = 0x20 then ['+']
  else ['%', hexUpper (b / 16), hexUpper (b % 16)]

/-- Go `url.QueryEscape`. -/
def queryEscape (s : String) : String :=
  String.mk ((s.data.flatMap utf8Bytes).flatMap queryEscapeByte)

/-- Go `url.Values.Encode` for the exact `{type: A, name: fqdn}` value that
`GetARecord` builds: keys are emitted in sorted order (`name` before `type`). -/
def encodeTypeNameParams (fqdn : String) : String :=
  "name=" ++ queryEscape fqdn ++ "&type=A"

example : queryEscape "example.com" = "example.com" := by decide
example : queryEscape "a b&c" = "a+b%26c" := by decide
example :
    buildURL (goURLParse "https://api.cloudflare.com/client/v4") "zones?name=example.com"
      = "https://api.cloudflare.com/client/zones?name=example.com" := by decide
example :
    buildURL (goURLParse "https://api.cloudflare.com/client/v4/") "zones?name=example.com"
      = "https://api.cloudflare.com/client/v4/zones?name=example.com" := by decide
example :
    buildURL (goURLParse "http://127.0.0.1:8080") "zones?name=example.com"
      = "http://127.0.0.1:8080/zones?name=example.com" := by decide

/-! ## Data model (`cloudflare/dns.go` types) -/

/-- Embeds `cloudflare.apiMessage`. -/
structure ApiMessage where
  code : Int
  message : String
deriving DecidableEq

/-- Embeds the generic response envelope `cloudflare.apiResponse[T]`. -/
structure ApiResponse (T : Type) where
  success : Bool
  errors : List ApiMessage
  messages : List ApiMessage
  result : T
deriving DecidableEq

/-- Embeds `cloudflare.Zone`. -/
structure Zone where
  id : String
  name : String
deriving DecidableEq

/-- Embeds `cloudflare.DNSRecord` (field `Type` is rendered `rtype`). -/
structure DNSRecord where
  id : String
  rtype : String
  name : String
  content : String
  ttl : Int
  proxied : Bool
deriving DecidableEq

/-! ## Client construction (`cloudflare/client.go`) -/

/-- Default base URL constant from client.go. -/
def defaultBaseURLString : String := "https://api.cloudflare.com/client/v4"

/-- Default user agent constant from client.go. -/
def defaultUserAgent : String := "cloudflare-go/1.0 (+github.com/jsirianni/cloudflare-go)"

/-- Embeds `cloudflare.AuthMode`. -/
inductive AuthMode where
  | globalKey
  | apiToken
deriving DecidableEq

/-- Embeds `cloudflare.Options`; the transport-configuration fields
(HTTPClient, TLSConfig, Timeout) only shape the HTTP transport and are not
modelled. -/
structure Options where
  baseURL : String := ""
  userAgent : String := ""
  apiToken : String := ""
  globalKey : String := ""
  email : String := ""
deriving DecidableEq

/-- Embeds `cloudflare.Client` (the HTTP client field is not modelled). -/
structure Client where
  authMode : AuthMode
  email : String
  globalKey : String
  apiToken : String
  baseURL : GoURL
  userAgent : String
deriving DecidableEq

/-- Go `unicode.IsSpace` on the whitespace characters `strings.TrimSpace`
strips (ASCII whitespace plus NEL and NBSP; wider Unicode space classes are
not modelled). -/
def goIsSpace (c : Char) : Bool :=
  c = ' ' ∨ c = '\t' ∨ c = '\n' ∨ c = Char.ofNat 11 ∨ c = Char.ofNat 12 ∨
    c = '\r' ∨ c = Char.ofNat 0x85 ∨ c = Char.ofNat 0xA0

/-- Go `strings.TrimSpace`. -/
def goTrimSpace (s : String) : String :=
  String.mk (((s.data.dropWhile goIsSpace).reverse.dropWhile goIsSpace).reverse)

/-- Embeds `cloudflare.New` with the assembled `Options` value (the functional
options have already been applied). `parsedBase` is the oracle for
`url.Parse` on the chosen base string: `.ok u` when that parse succeeds with
`u`, `.error e` when it fails. -/
def New (options : Options) (parsedBase : Except String GoURL) : Except Err Client :=
  let haveGlobal := options.email ≠ "" ∧ options.globalKey ≠ ""
  let haveToken := options.apiToken ≠ ""
  if haveGlobal ∧ haveToken then .error .newBothAuth
  else if ¬haveGlobal ∧ ¬haveToken then .error .newMissingAuth
  else
    let mode : AuthMode := if haveGlobal then .globalKey else .apiToken
    match parsedBase with
    | .error e => .error (.newInvalidBaseURL e)
    | .ok parsed =>
      let userAgent := if goTrimSpace options.userAgent = "" then defaultUserAgent else options.userAgent
      .ok { authMode := mode, email := options.email, globalKey := options.globalKey,
            apiToken := if mode = .apiToken then options.apiToken else "",
            baseURL := parsed, userAgent := userAgent }

/-- The parsed default base URL, i.e. `url.Parse(defaultBaseURL)`. -/
def defaultBaseURL : GoURL := goURLParse defaultBaseURLString

example : defaultBaseURL =
    { scheme := "https", host := "api.cloudflare.com", path := "/client/v4", rawQuery := "" } := by decide
example : isOkE (New { apiToken := "tok" } (.ok defaultBaseURL)) = true := by decide
example : New { } (.ok defaultBaseURL) = .error .newMissingAuth := by decide
example : New { apiToken := "t", email := "e", globalKey := "k" } (.ok defaultBaseURL)
    = .error .newBothAuth := by decide

/-! ## DNS operations (`cloudflare/dns.go`)

Each operation takes the wire outcome for the single request it makes as an
oracle: a transport error from `c.do`, or a status code together with the
JSON-decode outcome of the body. The list of requests actually dispatched is
returned alongside the Go return value. -/

/-- Outcome of one HTTP round trip as seen by a dns.go operation: transport
failure, or a response status with the decoded envelope (or decode error). -/
inductive HTTPResult (T : Type) where
  | transportError (e : String)
  | response (status : Nat) (body : Except String (ApiResponse T))

/-- A dispatched HTTP request: method, fully built URL, and the JSON payload
for write operations. -/
structure Request where
  method : String
  url : String
  body : Option DNSRecord
deriving DecidableEq

/-- Embeds `Client.FindZoneID`. -/
def FindZoneID (c : Client) (zoneName : String) (wire : HTTPResult (List Zone)) :
    List Request × Except Err String :=
  if zoneName = "" then ([], .error .emptyZoneName)
  else
    let req : Request :=
      { method := "GET", url := buildURL c.baseURL ("zones?name=" ++ queryEscape zoneName),
        body := none }
    match wire with
    | .transportError e => ([req], .error (.transport e))
    | .response status body =>
      if status < 200 ∨ status ≥ 300 then ([req], .error (.zonesLookupStatus status))
      else
        match body with
        | .error e => ([req], .error (.decode e))
        | .ok out =>
          match out.success, out.result with
          | true, z :: _ => ([req], .ok z.id)
          | _, _ => ([req], .error (.zoneNotFound zoneName))

/-- Embeds `Client.GetARecord`. -/
def GetARecord (c : Client) (zoneID fqdn : String) (wire : HTTPResult (List DNSRecord)) :
    List Request × Except Err (Option DNSRecord) :=
  if zoneID = "" ∨ fqdn = "" then ([], .error .getArgsRequired)
  else
    let req : Request :=
      { method := "GET",
        url := buildURL c.baseURL ("zones/" ++ zoneID ++ "/dns_records?" ++ encodeTypeNameParams fqdn),
        body := none }
    match wire with
    | .transportError e => ([req], .error (.transport e))
    | .response status body =>
      if status < 200 ∨ status ≥ 300 then ([req], .error (.getStatus status))
      else
        match body with
        | .error e => ([req], .error (.decode e))
        | .ok out =>
          match out.success, out.result with
          | true, r :: _ => ([req], .ok (some r))
          | _, _ => ([req], .ok none)

/-- Embeds `Client.CreateARecord` (no argument validation in the source). -/
def CreateARecord (c : Client) (zoneID : String) (payload : DNSRecord)
    (wire : HTTPResult DNSRecord) : List Request × Except Err DNSRecord :=
  let req : Request :=
    { method := "POST", url := buildURL c.baseURL ("zones/" ++ zoneID ++ "/dns_records"),
      body := some payload }
  match wire with
  | .transportError e => ([req], .error (.transport e))
  | .response status body =>
    if status < 200 ∨ status ≥ 300 then ([req], .error (.createStatus status))
    else
      match body with
      | .error e => ([req], .error (.decode e))
      | .ok out =>
        if out.success then ([req], .ok out.result)
        else ([req], .error .createUnsuccessful)

/-- Embeds `Client.UpdateARecord`. -/
def UpdateARecord (c : Client) (zoneID recordID : String) (payload : DNSRecord)
    (wire : HTTPResult DNSRecord) : List Request × Except Err DNSRecord :=
  if zoneID = "" ∨ recordID = "" then ([], .error .updateArgsRequired)
  else
    let req : Request :=
      { method := "PUT",
        url := buildURL c.baseURL ("zones/" ++ zoneID ++ "/dns_records/" ++ recordID),
        body := some payload }
    match wire with
    | .transportError e => ([req], .error (.transport e))
    | .response status body =>
      if status < 200 ∨ status ≥ 300 then ([req], .error (.updateStatus status))
      else
        match body with
        | .error e => ([req], .error (.decode e))
        | .ok out =>
          if out.success then ([req], .ok out.result)
          else ([req], .error .updateUnsuccessful)

/-- A call made to one of the client's DNS methods (tracked so that claims
about which methods an orchestrating function invokes are statable). -/
inductive ClientCall where
  | findZone (zoneName : String)
  | get (zoneID fqdn : String)
  | create (zoneID : String) (payload : DNSRecord)
  | update (zoneID recordID : String) (payload : DNSRecord)
deriving DecidableEq

/-- Embeds `Client.UpsertARecord`: validates arguments, then issues exactly a
blind `CreateARecord` with the label-form payload; on success returns the
created record with a `true` created flag. -/
def UpsertARecord (c : Client) (zoneID name ip : String) (ttl : Int) (proxied : Bool)
    (createWire : HTTPResult DNSRecord) : List ClientCall × Except Err (DNSRecord × Bool) :=
  if zoneID = "" ∨ name = "" ∨ ip = "" then ([], .error .upsertArgsRequired)
  else
    let payload : DNSRecord :=
      { id := "", rtype := "A", name := name, content := ip, ttl := ttl, proxied := proxied }
    match (CreateARecord c zoneID payload createWire).2 with
    | .ok rec => ([.create zoneID payload], .ok (rec, true))
    | .error e => ([.create zoneID payload], .error e)

/-! ## Reconciliation flow (`cmd/cloudflare/main.go`) -/

/-- Embeds `validateInputs` (main.go): the validation error, or `none` when
all inputs pass. -/
def validateInputs (zone name : String) (ttl : Int) (email globalKey apiToken : String) :
    Option Err :=
  if goTrimSpace zone = "" then some .validateZoneRequired
  else if goTrimSpace name = "" then some .validateNameRequired
  else if ttl < 0 then some .validateTTLNegative
  else
    let haveGlobal := email ≠ "" ∧ globalKey ≠ ""
    let haveToken := apiToken ≠ ""
    if haveGlobal ∧ haveToken then some .validateBothCreds
    else if ¬haveGlobal ∧ ¬haveToken then some .validateMissingCreds
    else none

/-- Embeds the client-construction block of `run` (main.go): token-only
arguments construct a token client, complete global-key arguments construct a
global-key client, anything else is rejected. The base URL is the default,
whose `url.Parse` succeeds with `defaultBaseURL`. -/
def mkRunClient (email globalKey apiToken : String) : Except Err Client :=
  if apiToken ≠ "" ∧ email = "" ∧ globalKey = "" then
    New { apiToken := apiToken } (.ok defaultBaseURL)
  else if apiToken = "" ∧ email ≠ "" ∧ globalKey ≠ "" then
    New { email := email, globalKey := globalKey } (.ok defaultBaseURL)
  else .error .runCredsConflict

/-- A write call issued by the reconciliation flow. -/
inductive WriteCall where
  | update (zoneID recordID : String) (payload : DNSRecord)
  | create (zoneID : String) (payload : DNSRecord)
deriving DecidableEq

/-- Wire responses for the (at most four) network interactions one run can
perform: IP discovery, zone lookup, record fetch, and the write. -/
structure World where
  ipWire : HTTPRaw
  zonesWire : HTTPResult (List Zone)
  recordsWire : HTTPResult (List DNSRecord)
  updateWire : HTTPResult DNSRecord
  createWire : HTTPResult DNSRecord

/-- Embeds `run` (main.go): validate, construct the client, discover the
WAN IP, resolve the zone, fetch the existing A record, then decide
no-op / update / create. Returns the write calls issued and either the
printed status line or the error `run` returns. -/
def run (zone name : String) (ttl : Int) (proxied : Bool)
    (email globalKey apiToken : String) (w : World) :
    List WriteCall × Except Err String :=
  match validateInputs zone name ttl email globalKey apiToken with
  | some e => ([], .error e)
  | none =>
    match mkRunClient email globalKey apiToken with
    | .error e => ([], .error e)
    | .ok c =>
      match DiscoverIPv4ViaIpify w.ipWire with
      | .error e => ([], .error (.wanIP e))
      | .ok wanIP =>
        match (FindZoneID c zone w.zonesWire).2 with
        | .error e => ([], .error e)
        | .ok zoneID =>
          let fqdn := name ++ "." ++ zone
          match (GetARecord c zoneID fqdn w.recordsWire).2 with
          | .error e => ([], .error e)
          | .ok recOpt =>
            let payload : DNSRecord :=
              { id := "", rtype := "A", name := name, content := wanIP,
                ttl := ttl, proxied := proxied }
            match recOpt with
            | some rec =>
              if rec.content = wanIP then
                ([], .ok ("No change: " ++ fqdn ++ " already points to " ++ wanIP))
              else
                match (UpdateARecord c zoneID rec.id payload w.updateWire).2 with
                | .error e => ([WriteCall.update zoneID rec.id payload], .error e)
                | .ok _ =>
                  ([WriteCall.update zoneID rec.id payload],
                   .ok ("Updated A " ++ fqdn ++ " -> " ++ wanIP))
            | none =>
              match (CreateARecord c zoneID payload w.createWire).2 with
              | .error e => ([WriteCall.create zoneID payload], .error e)
              | .ok _ =>
                ([WriteCall.create zoneID payload],
                 .ok ("Created A " ++ fqdn ++ " -> " ++ wanIP))

/-- Envelope carrying a successful zone lookup for `example.com`. -/
def zonesOkWire : HTTPResult (List Zone) :=
  .response 200 (.ok { success := true, errors := [], messages := [],
                       result := [{ id := "abc123", name := "example.com" }] })

/-- Existing A record fixture used by concrete run scenarios. -/
def recFixture : DNSRecord :=
  { id := "rid", rtype := "A", name := "home.example.com", content := "203.0.113.42",
    ttl := 300, proxied := false }

/-- Record-fetch wire carrying `recFixture`. -/
def recordsOkWire : HTTPResult (List DNSRecord) :=
  .response 200 (.ok { success := true, errors := [], messages := [], result := [recFixture] })

/-- Record-fetch wire carrying an empty result list (record absent). -/
def recordsAbsentWire : HTTPResult (List DNSRecord) :=
  .response 200 (.ok { success := true, errors := [], messages := [], result := [] })

/-- Write wire accepting the record and echoing it back. -/
def writeOkWire : HTTPResult DNSRecord :=
  .response 200 (.ok { success := true, errors := [], messages := [], result := recFixture })

/-- World in which the echo service reports the IP the record already has. -/
def worldNoop : World :=
  { ipWire := .response 200 "203.0.113.42", zonesWire := zonesOkWire,
    recordsWire := recordsOkWire, updateWire := writeOkWire, createWire := writeOkWire }

/-- World in which the echo service reports a different IP. -/
def worldChanged : World :=
  { ipWire := .response 200 "203.0.113.9", zonesWire := zonesOkWire,
    recordsWire := recordsOkWire, updateWire := writeOkWire, createWire := writeOkWire }

/-- World in which no record exists yet. -/
def worldAbsent : World :=
  { ipWire := .response 200 "203.0.113.9", zonesWire := zonesOkWire,
    recordsWire := recordsAbsentWire, updateWire := writeOkWire, createWire := writeOkWire }

example : run "example.com" "home" 1 false "" "" "tok" worldNoop
    = ([], .ok "No change: home.example.com already points to 203.0.113.42") := by decide
example : run "example.com" "home" 1 false "" "" "tok" worldChanged
    = ([WriteCall.update "abc123" "rid"
         { id := "", rtype := "A", name := "home", content := "203.0.113.9", ttl := 1, proxied := false }],
       .ok "Updated A home.example.com -> 203.0.113.9") := by decide
example : run "example.com" "home" 1 false "" "" "tok" worldAbsent
    = ([WriteCall.create "abc123"
         { id := "", rtype := "A", name := "home", content := "203.0.113.9", ttl := 1, proxied := false }],
       .ok "Created A home.example.com -> 203.0.113.9") := by decide

/-! ## Theorems for the claims -/

/-- The client `New` constructs for token-only options with the default base
URL; used as a concrete client by several witnesses. -/
def tokClient : Client :=
  { authMode := .apiToken, email := "", globalKey := "", apiToken := "tok",
    baseURL := defaultBaseURL, userAgent := defaultUserAgent }

example : New { apiToken := "tok" } (.ok defaultBaseURL) = .ok tokClient := by decide

/-- C4 counterexample: supplying an email without a global key together with
an API token — the claim's own example of a forbidden mixed combination —
nevertheless yields a successfully constructed client. -/
theorem c4_counterexample_mixed_partial_succeeds :
    isOkE (New { email := "e", apiToken := "t" } (.ok defaultBaseURL)) = true ∧
    New { email := "e", apiToken := "t" } (.ok defaultBaseURL)
      = .ok { authMode := .apiToken, email := "e", globalKey := "", apiToken := "t",
              baseURL := defaultBaseURL, userAgent := defaultUserAgent } := by
  decide

/-- C4 amended: with a base URL that parses, `New` succeeds exactly when one
of the two credential variants is completely supplied and the other complete
variant is not: the global variant counts as supplied only when both email
and global key are non-empty, so leftover fields of an incomplete global
variant alongside an API token are ignored and construction succeeds. -/
theorem c4_amended_new_succeeds_iff_exactly_one_complete_variant
    (options : Options) (u : GoURL) :
    isOkE (New options (.ok u)) = true ↔
      (((options.email ≠ "" ∧ options.globalKey ≠ "") ∨ options.apiToken ≠ "") ∧
        ¬((options.email ≠ "" ∧ options.globalKey ≠ "") ∧ options.apiToken ≠ "")) := by
  by_cases hg : options.email ≠ "" ∧ options.globalKey ≠ "" <;>
    by_cases ht : options.apiToken ≠ "" <;>
      simp [New, isOkE, hg, ht]

/-- C1 counterexample: a 2xx response whose envelope has `success:false`
makes `GetARecord` return a nil record with a nil error — an absence result,
not the error return the claim requires. -/
theorem c1_counterexample_getARecord_success_false_is_absence :
    (GetARecord tokClient "zid" "a.example.com"
        (.response 200 (.ok { success := false, errors := [], messages := [], result := [] }))).2
      = .ok none ∧
    isErr (GetARecord tokClient "zid" "a.example.com"
        (.response 200 (.ok { success := false, errors := [], messages := [], result := [] }))).2
      = false := by
  decide

/-- C1 amended: on a 2xx response whose decoded envelope has `success` false,
`FindZoneID`, `CreateARecord` and `UpdateARecord` return an error, while
`GetARecord` (with non-empty arguments) instead treats the envelope as
absence and returns a nil record with a nil error. -/
theorem c1_amended_success_false_handling :
    (∀ (c : Client) (zoneName : String) (st : Nat) (env : ApiResponse (List Zone)),
      200 ≤ st → st < 300 → env.success = false →
      isErr (FindZoneID c zoneName (.response st (.ok env))).2 = true) ∧
    (∀ (c : Client) (zoneID : String) (payload : DNSRecord) (st : Nat) (env : ApiResponse DNSRecord),
      200 ≤ st → st < 300 → env.success = false →
      (CreateARecord c zoneID payload (.response st (.ok env))).2 = .error .createUnsuccessful) ∧
    (∀ (c : Client) (zoneID recordID : String) (payload : DNSRecord) (st : Nat)
        (env : ApiResponse DNSRecord),
      200 ≤ st → st < 300 → env.success = false →
      isErr (UpdateARecord c zoneID recordID payload (.response st (.ok env))).2 = true) ∧
    (∀ (c : Client) (zoneID fqdn : String) (st : Nat) (env : ApiResponse (List DNSRecord)),
      zoneID ≠ "" → fqdn ≠ "" → 200 ≤ st → st < 300 → env.success = false →
      (GetARecord c zoneID fqdn (.response st (.ok env))).2 = .ok none) := by
  refine ⟨?_, ?_, ?_, ?_⟩
  · intro c zoneName st env h1 h2 hs
    have hst : ¬(st < 200 ∨ st ≥ 300) := by omega
    by_cases hz : zoneName = "" <;> simp [FindZoneID, hz, hst, hs, isErr]
  · intro c zoneID payload st env h1 h2 hs
    have hst : ¬(st < 200 ∨ st ≥ 300) := by omega
    simp [CreateARecord, hst, hs]
  · intro c zoneID recordID payload st env h1 h2 hs
    have hst : ¬(st < 200 ∨ st ≥ 300) := by omega
    by_cases hz : zoneID = "" ∨ recordID = "" <;>
      simp [UpdateARecord, hz, hst, hs, isErr]
  · intro c zoneID fqdn st env hz hf h1 h2 hs
    have hst : ¬(st < 200 ∨ st ≥ 300) := by omega
    simp [GetARecord, hz, hf, hst, hs]

/-- C1 amended, witness: the four parts instantiated on a concrete 200
response with a `success:false` envelope. -/
theorem c1_amended_witness :
    isErr (FindZoneID tokClient "example.com"
        (.response 200 (.ok { success := false, errors := [], messages := [], result := [] }))).2
      = true ∧
    (CreateARecord tokClient "zid" recFixture
        (.response 200 (.ok { success := false, errors := [], messages := [], result := recFixture }))).2
      = .error .createUnsuccessful ∧
    isErr (UpdateARecord tokClient "zid" "rid" recFixture
        (.response 200 (.ok { success := false, errors := [], messages := [], result := recFixture }))).2
      = true ∧
    (GetARecord tokClient "zid" "a.example.com"
        (.response 200 (.ok { success := false, errors := [], messages := [], result := [recFixture] }))).2
      = .ok none :=
  ⟨c1_amended_success_false_handling.1 tokClient "example.com" 200
      { success := false, errors := [], messages := [], result := [] }
      (by decide) (by decide) rfl,
    c1_amended_success_false_handling.2.1 tokClient "zid" recFixture 200
      { success := false, errors := [], messages := [], result := recFixture }
      (by decide) (by decide) rfl,
    c1_amended_success_false_handling.2.2.1 tokClient "zid" "rid" recFixture 200
      { success := false, errors := [], messages := [], result := recFixture }
      (by decide) (by decide) rfl,
    c1_amended_success_false_handling.2.2.2 tokClient "zid" "a.example.com" 200
      { success := false, errors := [], messages := [], result := [recFixture] }
      (by decide) (by decide) (by decide) (by decide) rfl⟩

/-- C5: `FindZoneID` rejects an empty zone name before dispatching any
request; for a non-empty name on a 2xx response it returns the first zone's
id when the envelope succeeds with at least one result, and a not-found
error when the envelope's success flag is false or the result list is empty. -/
theorem c5_findZoneID_behaviour :
    (∀ (c : Client) (wire : HTTPResult (List Zone)),
      FindZoneID c "" wire = ([], .error .emptyZoneName)) ∧
    (∀ (c : Client) (name : String) (st : Nat) (env : ApiResponse (List Zone))
        (z : Zone) (zs : List Zone),
      name ≠ "" → 200 ≤ st → st < 300 → env.success = true → env.result = z :: zs →
      (FindZoneID c name (.response st (.ok env))).2 = .ok z.id) ∧
    (∀ (c : Client) (name : String) (st : Nat) (env : ApiResponse (List Zone)),
      name ≠ "" → 200 ≤ st → st < 300 → (env.success = false ∨ env.result = []) →
      (FindZoneID c name (.response st (.ok env))).2 = .error (.zoneNotFound name)) := by
  refine ⟨?_, ?_, ?_⟩
  · intro c wire
    simp [FindZoneID]
  · intro c name st env z zs hn h1 h2 hs hr
    have hst : ¬(st < 200 ∨ st ≥ 300) := by omega
    simp [FindZoneID, hn, hst, hs, hr]
  · intro c name st env hn h1 h2 hcase
    have hst : ¬(st < 200 ∨ st ≥ 300) := by omega
    rcases hcase with hs | hr
    · simp [FindZoneID, hn, hst, hs]
    · cases hs : env.success <;> simp [FindZoneID, hn, hst, hs, hr]

/-- C5 witness: the three parts instantiated on the concrete scenario from
the spec (zone `example.com`, id `abc123`) and on a failing envelope. -/
theorem c5_findZoneID_witness :
    FindZoneID tokClient "" zonesOkWire = ([], .error .emptyZoneName) ∧
    (FindZoneID tokClient "example.com"
        (.response 200 (.ok { success := true, errors := [], messages := [],
                              result := [{ id := "abc123", name := "example.com" }] }))).2
      = .ok "abc123" ∧
    (FindZoneID tokClient "missing.com"
        (.response 200 (.ok { success := true, errors := [], messages := [], result := [] }))).2
      = .error (.zoneNotFound "missing.com") :=
  ⟨c5_findZoneID_behaviour.1 tokClient zonesOkWire,
    c5_findZoneID_behaviour.2.1 tokClient "example.com" 200
      { success := true, errors := [], messages := [],
        result := [{ id := "abc123", name := "example.com" }] }
      { id := "abc123", name := "example.com" } []
      (by decide) (by decide) (by decide) rfl rfl,
    c5_findZoneID_behaviour.2.2 tokClient "missing.com" 200
      { success := true, errors := [], messages := [], result := [] }
      (by decide) (by decide) (by decide) (Or.inr rfl)⟩

/-- C9: on a 2xx response whose envelope succeeds with a non-empty result
list, `GetARecord` returns a pointer to the first record; any later records
are ignored. -/
theorem c9_getARecord_returns_first (c : Client) (zoneID fqdn : String) (st : Nat)
    (env : ApiResponse (List DNSRecord)) (r : DNSRecord) (rs : List DNSRecord)
    (hz : zoneID ≠ "") (hf : fqdn ≠ "") (h1 : 200 ≤ st) (h2 : st < 300)
    (hs : env.success = true) (hr : env.result = r :: rs) :
    (GetARecord c zoneID fqdn (.response st (.ok env))).2 = .ok (some r) := by
  have hst : ¬(st < 200 ∨ st ≥ 300) := by omega
  simp [GetARecord, hz, hf, hst, hs, hr]

/-- C9 witness: a two-record envelope returns the first record. -/
theorem c9_getARecord_returns_first_witness :
    (GetARecord tokClient "zid" "a.example.com"
        (.response 200 (.ok { success := true, errors := [], messages := [],
                              result := [recFixture, { recFixture with id := "rid2" }] }))).2
      = .ok (some recFixture) :=
  c9_getARecord_returns_first tokClient "zid" "a.example.com" 200
    { success := true, errors := [], messages := [],
      result := [recFixture, { recFixture with id := "rid2" }] }
    recFixture [{ recFixture with id := "rid2" }]
    (by decide) (by decide) (by decide) (by decide) rfl rfl

/-- C2: whenever the flow's record fetch returns an existing record whose
content equals the discovered public IP, `run` performs zero write calls,
reports the no-change message, and terminates successfully. -/
theorem c2_noop_when_ip_unchanged (zone name : String) (ttl : Int) (proxied : Bool)
    (email globalKey apiToken wanIP zoneID : String) (rec : DNSRecord) (c : Client) (w : World)
    (hval : validateInputs zone name ttl email globalKey apiToken = none)
    (hc : mkRunClient email globalKey apiToken = .ok c)
    (hip : DiscoverIPv4ViaIpify w.ipWire = .ok wanIP)
    (hz : (FindZoneID c zone w.zonesWire).2 = .ok zoneID)
    (hr : (GetARecord c zoneID (name ++ "." ++ zone) w.recordsWire).2 = .ok (some rec))
    (heq : rec.content = wanIP) :
    run zone name ttl proxied email globalKey apiToken w
      = ([], .ok ("No change: " ++ (name ++ "." ++ zone) ++ " already points to " ++ wanIP)) := by
  simp [run, hval, hc, hip, hz, hr, heq]

/-- C2 witness: the concrete no-change scenario with a token client. -/
theorem c2_noop_witness :
    run "example.com" "home" 1 false "" "" "tok" worldNoop
      = ([], .ok ("No change: " ++ ("home" ++ "." ++ "example.com") ++
                  " already points to " ++ "203.0.113.42")) :=
  c2_noop_when_ip_unchanged "example.com" "home" 1 false "" "" "tok" "203.0.113.42" "abc123"
    recFixture tokClient worldNoop rfl (by decide) rfl (by decide) (by decide) rfl

/-- C3: once the flow reaches the decision step, a present record whose
content differs from the discovered IP yields exactly one write — an update
with the existing record's id and the discovered IP as new content — and an
absent record yields exactly one write, a create; in either case no other
write call occurs. -/
theorem c3_exactly_one_write (zone name : String) (ttl : Int) (proxied : Bool)
    (email globalKey apiToken wanIP zoneID : String) (c : Client) (w : World)
    (hval : validateInputs zone name ttl email globalKey apiToken = none)
    (hc : mkRunClient email globalKey apiToken = .ok c)
    (hip : DiscoverIPv4ViaIpify w.ipWire = .ok wanIP)
    (hz : (FindZoneID c zone w.zonesWire).2 = .ok zoneID) :
    (∀ rec, (GetARecord c zoneID (name ++ "." ++ zone) w.recordsWire).2 = .ok (some rec) →
      rec.content ≠ wanIP →
      (run zone name ttl proxied email globalKey apiToken w).1
        = [WriteCall.update zoneID rec.id
            { id := "", rtype := "A", name := name, content := wanIP,
              ttl := ttl, proxied := proxied }]) ∧
    ((GetARecord c zoneID (name ++ "." ++ zone) w.recordsWire).2 = .ok none →
      (run zone name ttl proxied email globalKey apiToken w).1
        = [WriteCall.create zoneID
            { id := "", rtype := "A", name := name, content := wanIP,
              ttl := ttl, proxied := proxied }]) := by
  constructor
  · intro rec hr hne
    cases hu : (UpdateARecord c zoneID rec.id
        { id := "", rtype := "A", name := name, content := wanIP,
          ttl := ttl, proxied := proxied } w.updateWire).2 <;>
      simp [run, hval, hc, hip, hz, hr, hne, hu]
  · intro hr
    cases hcr : (CreateARecord c zoneID
        { id := "", rtype := "A", name := name, content := wanIP,
          ttl := ttl, proxied := proxied } w.createWire).2 <;>
      simp [run, hval, hc, hip, hz, hr, hcr]

/-- C3 witness: the update branch on `worldChanged` and the create branch on
`worldAbsent`, both with the concrete token client. -/
theorem c3_exactly_one_write_witness :
    (run "example.com" "home" 1 false "" "" "tok" worldChanged).1
      = [WriteCall.update "abc123" "rid"
          { id := "", rtype := "A", name := "home", content := "203.0.113.9",
            ttl := 1, proxied := false }] ∧
    (run "example.com" "home" 1 false "" "" "tok" worldAbsent).1
      = [WriteCall.create "abc123"
          { id := "", rtype := "A", name := "home", content := "203.0.113.9",
            ttl := 1, proxied := false }] :=
  ⟨(c3_exactly_one_write "example.com" "home" 1 false "" "" "tok" "203.0.113.9" "abc123"
      tokClient worldChanged rfl (by decide) rfl (by decide)).1
      recFixture (by decide) (by decide),
    (c3_exactly_one_write "example.com" "home" 1 false "" "" "tok" "203.0.113.9" "abc123"
      tokClient worldAbsent rfl (by decide) rfl (by decide)).2 (by decide)⟩

/-- C8: with non-empty arguments `UpsertARecord` issues exactly one
`CreateARecord` call — never a `GetARecord` or `UpdateARecord` — and returns
the created record with a `true` created flag when the create succeeds, and
the create's error otherwise. -/
theorem c8_upsert_is_blind_create (c : Client) (zoneID name ip : String) (ttl : Int)
    (proxied : Bool) (createWire : HTTPResult DNSRecord)
    (hz : zoneID ≠ "") (hn : name ≠ "") (hi : ip ≠ "") :
    (UpsertARecord c zoneID name ip ttl proxied createWire).1
      = [ClientCall.create zoneID
          { id := "", rtype := "A", name := name, content := ip, ttl := ttl, proxied := proxied }] ∧
    (∀ rec,
      (CreateARecord c zoneID
          { id := "", rtype := "A", name := name, content := ip, ttl := ttl, proxied := proxied }
          createWire).2 = .ok rec →
      (UpsertARecord c zoneID name ip ttl proxied createWire).2 = .ok (rec, true)) ∧
    (∀ e,
      (CreateARecord c zoneID
          { id := "", rtype := "A", name := name, content := ip, ttl := ttl, proxied := proxied }
          createWire).2 = .error e →
      (UpsertARecord c zoneID name ip ttl proxied createWire).2 = .error e) := by
  refine ⟨?_, ?_, ?_⟩
  · cases hcr : (CreateARecord c zoneID
        { id := "", rtype := "A", name := name, content := ip, ttl := ttl, proxied := proxied }
        createWire).2 <;>
      simp [UpsertARecord, hz, hn, hi, hcr]
  · intro rec hcr
    simp [UpsertARecord, hz, hn, hi, hcr]
  · intro e hcr
    simp [UpsertARecord, hz, hn, hi, hcr]

/-- C8 witness: a concrete successful create and a concrete failing create. -/
theorem c8_upsert_is_blind_create_witness :
    (UpsertARecord tokClient "zid" "home" "203.0.113.9" 1 false writeOkWire).1
      = [ClientCall.create "zid"
          { id := "", rtype := "A", name := "home", content := "203.0.113.9",
            ttl := 1, proxied := false }] ∧
    (UpsertARecord tokClient "zid" "home" "203.0.113.9" 1 false writeOkWire).2
      = .ok (recFixture, true) ∧
    (UpsertARecord tokClient "zid" "home" "203.0.113.9" 1 false (.transportError "down")).2
      = .error (.transport "down") :=
  ⟨(c8_upsert_is_blind_create tokClient "zid" "home" "203.0.113.9" 1 false writeOkWire
      (by decide) (by decide) (by decide)).1,
    (c8_upsert_is_blind_create tokClient "zid" "home" "203.0.113.9" 1 false writeOkWire
      (by decide) (by decide) (by decide)).2.1 recFixture (by decide),
    (c8_upsert_is_blind_create tokClient "zid" "home" "203.0.113.9" 1 false
      (.transportError "down") (by decide) (by decide) (by decide)).2.2
      (.transport "down") (by decide)⟩

/-- C6 counterexample: the IPv4-mapped IPv6 literal `::ffff:203.0.113.42` is
an IPv6 literal, yet discovery does not reject it — it succeeds with the
embedded dotted-decimal address, contradicting the claim that every IPv6
literal fails. -/
theorem c6_counterexample_v4mapped_ipv6_not_rejected :
    DiscoverIPv4ViaIpify (.response 200 "::ffff:203.0.113.42") = .ok "203.0.113.42" ∧
    isErr (DiscoverIPv4ViaIpify (.response 200 "::ffff:203.0.113.42")) = false := by
  decide

/-- C6 amended: on a 2xx response, discovery succeeds exactly when the body
parses under `net.ParseIP` to an address with an extractable IPv4 form
(`To4` non-nil) — well-formed dotted-decimal IPv4 and IPv4-mapped IPv6
literals — returning the dotted-decimal text of those four bytes; empty
bodies, non-numeric text and IPv6 literals without an IPv4 form are rejected
with the invalid-response error. -/
theorem c6_amended_discovery_accepts_exactly_ipv4_convertible :
    (∀ (st : Nat) (body : String) (ip b4 : List Nat),
      200 ≤ st → st < 300 → goParseIP body = some ip → to4 ip = some b4 →
      DiscoverIPv4ViaIpify (.response st body) = .ok (v4String b4)) ∧
    (∀ (st : Nat) (body : String),
      200 ≤ st → st < 300 → goParseIP body = none →
      DiscoverIPv4ViaIpify (.response st body) = .error .invalidIPv4Response) ∧
    (∀ (st : Nat) (body : String) (ip : List Nat),
      200 ≤ st → st < 300 → goParseIP body = some ip → to4 ip = none →
      DiscoverIPv4ViaIpify (.response st body) = .error .invalidIPv4Response) ∧
    DiscoverIPv4ViaIpify (.response 200 "") = .error .invalidIPv4Response ∧
    DiscoverIPv4ViaIpify (.response 200 "not an ip") = .error .invalidIPv4Response ∧
    DiscoverIPv4ViaIpify (.response 200 "2001:db8::1") = .error .invalidIPv4Response ∧
    DiscoverIPv4ViaIpify (.response 200 "203.0.113.42") = .ok "203.0.113.42" := by
  refine ⟨?_, ?_, ?_, by decide, by decide, by decide, by decide⟩
  · intro st body ip b4 h1 h2 hp h4
    have hst : ¬(st < 200 ∨ st ≥ 300) := by omega
    simp [DiscoverIPv4ViaIpify, hst, hp, h4]
  · intro st body h1 h2 hp
    have hst : ¬(st < 200 ∨ st ≥ 300) := by omega
    simp [DiscoverIPv4ViaIpify, hst, hp]
  · intro st body ip h1 h2 hp h4
    have hst : ¬(st < 200 ∨ st ≥ 300) := by omega
    simp [DiscoverIPv4ViaIpify, hst, hp, h4]

/-- C6 amended, witness: the success part instantiated on the concrete
dotted-decimal body `203.0.113.42` at status 200. -/
theorem c6_amended_witness :
    DiscoverIPv4ViaIpify (.response 200 "203.0.113.42") = .ok (v4String [203, 0, 113, 42]) :=
  c6_amended_discovery_accepts_exactly_ipv4_convertible.1 200 "203.0.113.42"
    (v4InV6 [203, 0, 113, 42]) [203, 0, 113, 42]
    (by decide) (by decide) (by decide) (by decide)

/-- C10: discovery accepts the IPv4-mapped IPv6 literal
`::ffff:203.0.113.42` and returns the embedded address `203.0.113.42` in
dotted-decimal form. -/
theorem c10_v4mapped_ipv6_accepted :
    DiscoverIPv4ViaIpify (HTTPRaw.response 200 "::ffff:203.0.113.42")
      = Except.ok "203.0.113.42" := by
  decide

/-- C7: with the default base URL `https://api.cloudflare.com/client/v4`
(no trailing slash), standard URL-reference resolution merges relative paths
against the base path's parent, so the dispatched URLs drop the base's final
`v4` segment — the full path prefix of the default base URL is not
preserved; a trailing-slash base would preserve it. -/
theorem c7_default_base_path_prefix_dropped :
    buildURL defaultBaseURL "zones?name=example.com"
      = "https://api.cloudflare.com/client/zones?name=example.com" ∧
    (FindZoneID tokClient "example.com" (.transportError "offline")).1
      = [{ method := "GET", url := "https://api.cloudflare.com/client/zones?name=example.com",
           body := none }] ∧
    (GetARecord tokClient "zid" "a.example.com" (.transportError "offline")).1
      = [{ method := "GET",
           url := "https://api.cloudflare.com/client/zones/zid/dns_records?name=a.example.com&type=A",
           body := none }] ∧
    (CreateARecord tokClient "zid" recFixture (.transportError "offline")).1
      = [{ method := "POST", url := "https://api.cloudflare.com/client/zones/zid/dns_records",
           body := some recFixture }] ∧
    (UpdateARecord tokClient "zid" "rid" recFixture (.transportError "offline")).1
      = [{ method := "PUT", url := "https://api.cloudflare.com/client/zones/zid/dns_records/rid",
           body := some recFixture }] ∧
    buildURL (goURLParse "https://api.cloudflare.com/client/v4/") "zones?name=example.com"
      = "https://api.cloudflare.com/client/v4/zones?name=example.com" := by
  decide
